import Mathlib

/-!
Verification of the subscription-service repository (Go).

Shallow embedding conventions:

* `time.Time` instants are modelled by `GoTime`: every instant decomposes
  uniquely into the calendar month it falls in (the absolute month index
  `Year()*12 + int(Month()) - 1`, exactly the quantity the Go code computes
  in `CalculateCostForPeriod`) and the number of nanoseconds elapsed since
  the start of that month.  `time.Time.Before`/`After` on instants is the
  lexicographic order on this decomposition.  All dates produced by the
  service are UTC, so locations are not modelled.
* `uuid.UUID` is modelled by `Nat`, with `0` playing the role of `uuid.Nil`.
* Go byte strings are Lean `String`s; `strings.Split(s, "-")` is `splitDash`
  on the character list, `strconv.Atoi` is `atoiL` (int64 overflow is not
  modelled: an overflowing component is rejected by Go and, in the model,
  by the surrounding 1..12 / 2000..2100 range checks, so acceptance and
  accepted values agree).  `strings.TrimSpace` trims `Char.isWhitespace`
  characters on both ends.
* Fallible Go functions returning `(T, error)` become `Except AppErr T`
  (or `Except String T` where the Go code uses bare `errors.New`).
* The persistence collaborator is modelled by its observable semantics:
  the SQL of `GetTotalCostForPeriod` over an explicit table
  (`List Subscription`), and for the service-layer functions the repository
  answer is passed in as data (`fetched : Option Subscription`); the
  returned `Bool` of `updateSubscription` records whether the repository
  `Update` write was invoked.  Repository connection failures are outside
  the modelled state space.
* `time.Now()` is threaded through as an explicit `now : GoTime` argument.
-/

/-- An instant of Go `time.Time`: absolute month index
`Year()*12 + int(Month()) - 1` plus nanoseconds since the month started. -/
structure GoTime where
  month : Int
  off : Nat
deriving DecidableEq, Repr

/-- Go `t.Before(u)`: strict instant order (lexicographic in the model). -/
def GoTime.before (t u : GoTime) : Bool :=
  decide (t.month < u.month) || (t.month == u.month && decide (t.off < u.off))

/-- Go `t.After(u)`. -/
def GoTime.after (t u : GoTime) : Bool :=
  GoTime.before u t

/-- Instant `≤`, as used by the SQL comparisons `<=` / `>=` on timestamps. -/
def GoTime.le (t u : GoTime) : Bool :=
  !(GoTime.before u t)

theorem GoTime.before_iff (t u : GoTime) :
    GoTime.before t u = true ↔ (t.month < u.month ∨ (t.month = u.month ∧ t.off < u.off)) := by
  simp [GoTime.before]

theorem GoTime.le_iff (t u : GoTime) :
    GoTime.le t u = true ↔ (t.month < u.month ∨ (t.month = u.month ∧ t.off ≤ u.off)) := by
  simp [GoTime.le, GoTime.before]
  omega

/-- `utils.StartOfMonth`: first instant of the month of `t`. -/
def startOfMonth (t : GoTime) : GoTime :=
  ⟨t.month, 0⟩

/-- Gregorian leap-year rule used by Go's `time` package. -/
def isLeapYear (y : Int) : Bool :=
  (y % 400 == 0) || (y % 4 == 0 && y % 100 != 0)

/-- Days in the month with absolute index `m` (0 = January of year 0). -/
def monthDays (m : Int) : Nat :=
  let y := m.ediv 12
  match (m.emod 12).toNat with
  | 0 => 31
  | 1 => if isLeapYear y then 29 else 28
  | 2 => 31
  | 3 => 30
  | 4 => 31
  | 5 => 30
  | 6 => 31
  | 7 => 31
  | 8 => 30
  | 9 => 31
  | 10 => 30
  | _ => 31

def nsPerDay : Nat := 86400000000000

/-- `utils.EndOfMonth`: first instant of the next month minus one
nanosecond, i.e. the last nanosecond inside the month of `t`. -/
def endOfMonth (t : GoTime) : GoTime :=
  ⟨t.month, monthDays t.month * nsPerDay - 1⟩

/-- Drop leading whitespace characters. -/
def dropWS : List Char → List Char
  | [] => []
  | c :: rest => if c.isWhitespace then dropWS rest else c :: rest

/-- Go `strings.TrimSpace` (whitespace per `Char.isWhitespace`). -/
def trimSpace (s : String) : String :=
  String.mk (List.reverse (dropWS (List.reverse (dropWS s.toList))))

/-- `utils.NormalizeString`. -/
def normalizeString (s : String) : String :=
  trimSpace s

/-- Is `pat` a leading segment of `hay`? -/
def prefAt : List Char → List Char → Bool
  | [], _ => true
  | _ :: _, [] => false
  | a :: as, b :: bs => a == b && prefAt as bs

/-- Does `pat` occur contiguously inside `hay`? -/
def hasSub (pat : List Char) : List Char → Bool
  | [] => prefAt pat []
  | c :: rest => prefAt pat (c :: rest) || hasSub pat rest

/-- SQL `hay ILIKE '%pat%'`: case-insensitive substring containment
(ASCII folding via `Char.toLower`; SQL wildcard characters inside the
pattern are not modelled). -/
def strContainsCI (hay pat : String) : Bool :=
  hasSub (pat.toList.map Char.toLower) (hay.toList.map Char.toLower)

def digitVal (c : Char) : Nat := c.toNat - 48

def natDigitsAux : List Char → Nat → Option Nat
  | [], acc => some acc
  | c :: rest, acc => if c.isDigit then natDigitsAux rest (acc * 10 + digitVal c) else none

/-- Parse a non-empty all-digit list. -/
def natDigits : List Char → Option Nat
  | [] => none
  | l => natDigitsAux l 0

/-- Go `strconv.Atoi` restricted to the shapes reachable here. -/
def atoiL (l : List Char) : Option Int :=
  match l with
  | '+' :: rest => (natDigits rest).map (fun n => (n : Int))
  | '-' :: rest => (natDigits rest).map (fun n => -(n : Int))
  | _ => (natDigits l).map (fun n => (n : Int))

/-- Go `strings.Split(s, "-")` on the character list. -/
def splitDash : List Char → List (List Char)
  | [] => [[]]
  | '-' :: rest => [] :: splitDash rest
  | c :: rest =>
    match splitDash rest with
    | head :: tail => (c :: head) :: tail
    | [] => [[c]]

/-- The `pkg/apperror` failure taxonomy (the constructors the modelled
code paths raise; `WithDetail` key/value pairs are inlined as fields). -/
inductive AppErr where
  | invalidDateFormat (value : String)
  | invalidDateRange (startDate endDate : String)
  | invalidInput (field reason : String)
  | invalidUserID (id : String)
  | invalidPrice (price : Int)
  | invalidServiceName
  | invalidPaginationParams (limit offset : Int) (detailKey detailVal : String)
  | subscriptionNotFound (id : String)
  | invalidSubscriptionData (field reason : String)
deriving DecidableEq, Repr

/-- `utils.ParseMonthYear`: parse `"MM-YYYY"`, month in 1..12 and year in
2000..2100, to the first instant of that month (UTC). -/
def parseMonthYear (s : String) : Except AppErr GoTime :=
  if s = "" then .error (.invalidDateFormat s)
  else
    match splitDash s.toList with
    | [p0, p1] =>
      match atoiL p0 with
      | none => .error (.invalidDateFormat s)
      | some month =>
        if month < 1 ∨ month > 12 then .error (.invalidDateFormat s)
        else
          match atoiL p1 with
          | none => .error (.invalidDateFormat s)
          | some year =>
            if year < 2000 ∨ year > 2100 then .error (.invalidDateFormat s)
            else .ok ⟨year * 12 + month - 1, 0⟩
    | _ => .error (.invalidDateFormat s)

/-- Two-digit zero-padded rendering of a month number. -/
def pad2 (n : Int) : String :=
  if n < 10 then "0" ++ toString n else toString n

/-- `utils.FormatMonthYear` (`"01-2006"` layout). -/
def formatMonthYear (t : GoTime) : String :=
  pad2 (t.month.emod 12 + 1) ++ "-" ++ toString (t.month.ediv 12)

/-- `utils.ValidateDateRange`. -/
def validateDateRange (startDate endDate : Option GoTime) : Except AppErr Unit :=
  match startDate, endDate with
  | some s, some e =>
    if GoTime.before e s then
      .error (.invalidDateRange (formatMonthYear s) (formatMonthYear e))
    else .ok ()
  | _, _ => .ok ()

/-- `utils.ParseDateRange`: parse optional bound strings, normalising the
start to the first and the end to the last instant of its month. -/
def parseDateRange (startStr endStr : String) : Except AppErr (Option GoTime × Option GoTime) :=
  match (if startStr ≠ "" then (parseMonthYear startStr).map (fun t => some (startOfMonth t)) else .ok none) with
  | .error e => .error e
  | .ok startDate =>
    match (if endStr ≠ "" then (parseMonthYear endStr).map (fun t => some (endOfMonth t)) else .ok none) with
    | .error e => .error e
    | .ok endDate =>
      match validateDateRange startDate endDate with
      | .error e => .error e
      | .ok () => .ok (startDate, endDate)

/-- `utils.ValidateServiceName`. -/
def validateServiceName (serviceName : String) : Except AppErr Unit :=
  if trimSpace serviceName = "" then .error .invalidServiceName
  else if serviceName.utf8ByteSize > 255 then
    .error (.invalidInput "service_name" "must not exceed 255 characters")
  else .ok ()

/-- `utils.ValidatePrice`. -/
def validatePrice (price : Int) : Except AppErr Unit :=
  if price ≤ 0 then .error (.invalidPrice price)
  else if price > 1000000 then .error (.invalidInput "price" "must not exceed 1,000,000")
  else .ok ()

/-- `utils.ValidatePagination`: reject negative limit, then negative
offset; default a zero limit to 20 and clamp limits above 100 to 100. -/
def validatePagination (limit offset : Int) : Except AppErr (Int × Int) :=
  if limit < 0 then
    .error (.invalidPaginationParams limit offset "limit_error" "must be non-negative")
  else if offset < 0 then
    .error (.invalidPaginationParams limit offset "offset_error" "must be non-negative")
  else
    let limit1 := if limit = 0 then 20 else limit
    let limit2 := if limit1 > 100 then 100 else limit1
    .ok (limit2, offset)

/-- The `models.Subscription` entity (unexported Go fields as record
fields; `uuid.UUID` as `Nat`, `0` = `uuid.Nil`). -/
structure Subscription where
  id : Nat
  serviceName : String
  price : Int
  userID : Nat
  startDate : GoTime
  endDate : Option GoTime
  createdAt : GoTime
  updatedAt : GoTime
deriving DecidableEq, Repr

/-- `models.NewSubscription` (generated id and `time.Now()` passed in). -/
def newSubscription (serviceName : String) (price : Int) (userID : Nat)
    (startDate : GoTime) (now : GoTime) (newID : Nat) : Subscription :=
  { id := newID, serviceName := serviceName, price := price, userID := userID
    startDate := startDate, endDate := none, createdAt := now, updatedAt := now }

/-- `SetServiceName`: also re-stamps `updatedAt`. -/
def Subscription.setServiceName (s : Subscription) (serviceName : String) (now : GoTime) : Subscription :=
  { s with serviceName := serviceName, updatedAt := now }

/-- `SetPrice`: also re-stamps `updatedAt`. -/
def Subscription.setPrice (s : Subscription) (price : Int) (now : GoTime) : Subscription :=
  { s with price := price, updatedAt := now }

/-- `SetStartDate`: also re-stamps `updatedAt`. -/
def Subscription.setStartDate (s : Subscription) (startDate : GoTime) (now : GoTime) : Subscription :=
  { s with startDate := startDate, updatedAt := now }

/-- `SetEndDate`: also re-stamps `updatedAt`. -/
def Subscription.setEndDate (s : Subscription) (endDate : Option GoTime) (now : GoTime) : Subscription :=
  { s with endDate := endDate, updatedAt := now }

/-- `Subscription.IsActive`. -/
def Subscription.isActive (s : Subscription) (date : GoTime) : Bool :=
  if GoTime.before date s.startDate then false
  else
    match s.endDate with
    | some e => if GoTime.after date e then false else true
    | none => true

/-- `Subscription.CalculateCostForPeriod`: month-granularity proration. -/
def Subscription.calculateCostForPeriod (s : Subscription) (fromT toT : GoTime) : Int :=
  if !(s.isActive fromT) && !(s.isActive toT) then 0
  else
    let start := if GoTime.after fromT s.startDate then fromT else s.startDate
    let stop :=
      match s.endDate with
      | some e => if GoTime.before e toT then e else toT
      | none => toT
    if GoTime.after start stop then 0
    else
      let startMonth := start.month
      let endMonth := stop.month
      let months := endMonth - startMonth + 1
      if months ≤ 0 then 0 else s.price * months

/-- `Subscription.Validate`. -/
def Subscription.validate (s : Subscription) : Except String Unit :=
  if s.serviceName = "" then .error "service name cannot be empty"
  else if s.price ≤ 0 then .error "price must be greater than zero"
  else if s.userID = 0 then .error "user ID cannot be empty"
  else
    match s.endDate with
    | some e =>
      if GoTime.before e s.startDate then .error "end date cannot be before start date"
      else .ok ()
    | none => .ok ()

/-- `models.DatePeriod` (Go fields `from`/`to`; `from` is reserved in
Lean, hence `fromT`/`toT`). -/
structure DatePeriod where
  fromT : GoTime
  toT : GoTime
deriving DecidableEq, Repr

/-- `DatePeriod.Contains`. -/
def DatePeriod.containsDate (dp : DatePeriod) (date : GoTime) : Bool :=
  !(GoTime.before date dp.fromT) && !(GoTime.after date dp.toT)

/-- `DatePeriod.Overlaps`. -/
def DatePeriod.overlaps (dp : DatePeriod) (other : DatePeriod) : Bool :=
  GoTime.before dp.fromT other.toT && GoTime.after dp.toT other.fromT

/-- `DatePeriod.Validate` (`errors.New` message kept verbatim). -/
def DatePeriod.validate (dp : DatePeriod) : Except String Unit :=
  if GoTime.before dp.toT dp.fromT then .error "end date cannot be before start date"
  else .ok ()

/-- `models.SubscriptionFilter` (nil pointers as `none`). -/
structure SubscriptionFilter where
  userID : Option Nat := none
  serviceName : Option String := none
  startDate : Option GoTime := none
  endDate : Option GoTime := none
  isActive : Option Bool := none
deriving DecidableEq, Repr

/-- `SubscriptionFilter.HasUserID`. -/
def SubscriptionFilter.hasUserID (f : SubscriptionFilter) : Bool :=
  f.userID.isSome

/-- `SubscriptionFilter.HasServiceName`: set and non-empty. -/
def SubscriptionFilter.hasServiceName (f : SubscriptionFilter) : Bool :=
  match f.serviceName with
  | some n => n ≠ ""
  | none => false

/-- `SubscriptionFilter.Validate`. -/
def SubscriptionFilter.validate (f : SubscriptionFilter) : Except String Unit :=
  match f.startDate, f.endDate with
  | some s, some e =>
    if GoTime.before e s then .error "end date cannot be before start date" else .ok ()
  | _, _ => .ok ()

/-- `models.CostSummary`. -/
structure CostSummary where
  totalCost : Int
  period : DatePeriod
  subscriptions : List Subscription
deriving DecidableEq, Repr

/-- `models.NewCostSummary`. -/
def newCostSummary (period : DatePeriod) : CostSummary :=
  { totalCost := 0, period := period, subscriptions := [] }

/-- `CostSummary.SetTotalCost`. -/
def CostSummary.setTotalCost (cs : CostSummary) (totalCost : Int) : CostSummary :=
  { cs with totalCost := totalCost }

/-- `CostSummary.SetPeriod`: resets `totalCost` because the period changed. -/
def CostSummary.setPeriod (cs : CostSummary) (period : DatePeriod) : CostSummary :=
  { cs with period := period, totalCost := 0 }

/-- `CostSummary.AddSubscription`. -/
def CostSummary.addSubscription (cs : CostSummary) (sub : Subscription) : CostSummary :=
  { cs with subscriptions := cs.subscriptions ++ [sub] }

/-- `CostSummary.Calculate`: sums each held subscription's period-clipped
cost, stores it in `totalCost` and returns it. -/
def CostSummary.calculate (cs : CostSummary) : CostSummary × Int :=
  let total := cs.subscriptions.foldl
    (fun acc sub => acc + sub.calculateCostForPeriod cs.period.fromT cs.period.toT) 0
  ({ cs with totalCost := total }, total)

/-- The WHERE clause of the repository's `GetTotalCostForPeriod` SQL:
`start_date <= $to AND (end_date IS NULL OR end_date >= $from)`, plus
`user_id = $u` when the filter has a user and
`service_name ILIKE '%name%'` when it has a non-empty service name. -/
def rowMatches (f : SubscriptionFilter) (period : DatePeriod) (s : Subscription) : Bool :=
  GoTime.le s.startDate period.toT
  && (match s.endDate with
      | none => true
      | some e => GoTime.le period.fromT e)
  && (match f.userID with
      | some u => s.userID == u
      | none => true)
  && (match f.serviceName with
      | some n => if n ≠ "" then strContainsCI s.serviceName n else true
      | none => true)

/-- The repository `GetTotalCostForPeriod` aggregate:
`SELECT COALESCE(SUM(price), 0)` over the rows selected by `rowMatches`. -/
def getTotalCostForPeriod (table : List Subscription) (f : SubscriptionFilter)
    (period : DatePeriod) : Int :=
  (table.filter (rowMatches f period)).foldl (fun acc s => acc + s.price) 0

/-- `GetSubscriptionByID`: nil-id check, then the repository answer
(`fetched` is what `repo.GetByID` returned; `none` = no row). -/
def getSubscriptionByID (id : Nat) (fetched : Option Subscription) : Except AppErr Subscription :=
  if id = 0 then .error (.invalidInput "id" "cannot be empty")
  else
    match fetched with
    | none => .error (.subscriptionNotFound (toString id))
    | some s => .ok s

/-- `validateCreateInput`. -/
def validateCreateInput (serviceName : String) (price : Int) (userID : Nat) : Except AppErr Unit :=
  match validateServiceName serviceName with
  | .error e => .error e
  | .ok () =>
    match validatePrice price with
    | .error e => .error e
    | .ok () =>
      if userID = 0 then .error (.invalidUserID (toString userID))
      else .ok ()

/-- `validateUpdateInput`: validates only supplied (and, for the name,
non-empty) fields. -/
def validateUpdateInput (serviceName : Option String) (price : Option Int) : Except AppErr Unit :=
  match (match serviceName with
         | some n => if n ≠ "" then validateServiceName n else .ok ()
         | none => .ok ()) with
  | .error e => .error e
  | .ok () =>
    match price with
    | some p => validatePrice p
    | none => .ok ()

/-- `subscriptionService.CreateSubscription` (persistence success assumed;
`now` and the generated id are passed in). -/
def createSubscription (serviceName : String) (price : Int) (userID : Nat)
    (startDate : String) (endDate : Option String) (now : GoTime) (newID : Nat) :
    Except AppErr Subscription :=
  match validateCreateInput serviceName price userID with
  | .error e => .error e
  | .ok () =>
    match parseMonthYear startDate with
    | .error e => .error e
    | .ok startTime0 =>
      let startTime := startOfMonth startTime0
      let sub := newSubscription (normalizeString serviceName) price userID startTime now newID
      let withEnd : Except AppErr Subscription :=
        match endDate with
        | some e =>
          if e ≠ "" then
            match parseMonthYear e with
            | .error er => .error er
            | .ok endTime0 =>
              let endTime := endOfMonth endTime0
              match validateDateRange (some startTime) (some endTime) with
              | .error er => .error er
              | .ok () => .ok (sub.setEndDate (some endTime) now)
          else .ok sub
        | none => .ok sub
      match withEnd with
      | .error er => .error er
      | .ok sub2 =>
        match sub2.validate with
        | .error m => .error (.invalidSubscriptionData "subscription" m)
        | .ok () => .ok sub2

/-- `subscriptionService.UpdateSubscription`: applies only supplied fields,
tracks `hasChanges`, skips both re-validation and the repository write when
nothing changed.  The returned `Bool` is `true` iff `repo.Update` was
invoked (the write is assumed to succeed). -/
def updateSubscription (id : Nat) (fetched : Option Subscription)
    (serviceName : Option String) (price : Option Int)
    (startDate : Option String) (endDate : Option String) (now : GoTime) :
    Except AppErr (Subscription × Bool) :=
  match getSubscriptionByID id fetched with
  | .error e => .error e
  | .ok sub0 =>
    match validateUpdateInput serviceName price with
    | .error e => .error e
    | .ok () =>
      let step1 : Subscription × Bool :=
        match serviceName with
        | some n =>
          if n ≠ "" then
            let normalized := normalizeString n
            if normalized ≠ sub0.serviceName then (sub0.setServiceName normalized now, true)
            else (sub0, false)
          else (sub0, false)
        | none => (sub0, false)
      let step2 : Subscription × Bool :=
        match price with
        | some p => if p ≠ step1.1.price then (step1.1.setPrice p now, true) else step1
        | none => step1
      let step3 : Except AppErr (Subscription × Bool) :=
        match startDate with
        | some sd =>
          if sd ≠ "" then
            match parseMonthYear sd with
            | .error e => .error e
            | .ok nsd => .ok (step2.1.setStartDate (startOfMonth nsd) now, true)
          else .ok step2
        | none => .ok step2
      match step3 with
      | .error e => .error e
      | .ok step3v =>
        let step4 : Except AppErr (Subscription × Bool) :=
          match endDate with
          | some ed =>
            if ed = "" then .ok (step3v.1.setEndDate none now, true)
            else
              match parseMonthYear ed with
              | .error e => .error e
              | .ok ned => .ok (step3v.1.setEndDate (some (endOfMonth ned)) now, true)
          | none => .ok step3v
        match step4 with
        | .error e => .error e
        | .ok (sub4, hasChanges) =>
          if !hasChanges then .ok (sub4, false)
          else
            match sub4.validate with
            | .error m => .error (.invalidSubscriptionData "subscription" m)
            | .ok () => .ok (sub4, true)

/-- `subscriptionService.CalculateTotalCost`: parse and validate the
period, build the filter, delegate the sum to the repository aggregate
over the given table, and wrap it in a `CostSummary`. -/
def calculateTotalCost (table : List Subscription) (userID : Option Nat)
    (serviceName : Option String) (startDate endDate : String) :
    Except AppErr CostSummary :=
  match parseDateRange startDate endDate with
  | .error e => .error e
  | .ok (startTime, endTime) =>
    match startTime, endTime with
    | some st, some et =>
      let period : DatePeriod := ⟨st, et⟩
      match period.validate with
      | .error _ => .error (.invalidDateRange startDate endDate)
      | .ok () =>
        let f0 : SubscriptionFilter := {}
        let f1 := match userID with
          | some u => { f0 with userID := some u }
          | none => f0
        let f2 := match serviceName with
          | some n =>
            if n ≠ "" then { f1 with serviceName := some (normalizeString n) } else f1
          | none => f1
        let total := getTotalCostForPeriod table f2 period
        .ok ((newCostSummary period).setTotalCost total)
    | _, _ => .error (.invalidInput "date_range" "both start_date and end_date are required")

instance {e a : Type} [DecidableEq e] [DecidableEq a] : DecidableEq (Except e a) := fun x y =>
  match x, y with
  | .ok u, .ok v => if h : u = v then .isTrue (by rw [h]) else .isFalse (by simp [h])
  | .error u, .error v => if h : u = v then .isTrue (by rw [h]) else .isFalse (by simp [h])
  | .ok _, .error _ => .isFalse (by simp)
  | .error _, .ok _ => .isFalse (by simp)

/-- A price-100 subscription starting at the first instant of Jan-2025
(month index `2025*12 + 1 - 1 = 24300`) with no end date — the §8 example
subscription, as `CreateSubscription` would build it. -/
def openSub : Subscription :=
  { id := 2, serviceName := "spotify", price := 100, userID := 1,
    startDate := ⟨24300, 0⟩, endDate := none,
    createdAt := ⟨24300, 0⟩, updatedAt := ⟨24300, 0⟩ }

/-- A subscription covering exactly Feb-2025: `startDate` the first instant
of Feb-2025 (index 24301) and `endDate` its last nanosecond
(`28 * 86400e9 - 1 = 2419199999999999`), as built from `"02-2025"`. -/
def febOnlySub : Subscription :=
  { id := 1, serviceName := "netflix", price := 100, userID := 1,
    startDate := ⟨24301, 0⟩, endDate := some ⟨24301, 2419199999999999⟩,
    createdAt := ⟨24300, 0⟩, updatedAt := ⟨24300, 0⟩ }

/-- C6: `DatePeriod.Overlaps` is symmetric: for every pair of periods `a`
and `b`, `a.Overlaps(b)` equals `b.Overlaps(a)`, where overlap is the
strict-on-both-sides test `from < other.to AND to > other.from`. -/
theorem c6_overlaps_symmetric (a b : DatePeriod) :
    a.overlaps b = b.overlaps a := by
  simp [DatePeriod.overlaps, GoTime.after, Bool.and_comm]

/-- C7: for every `CostSummary` and every new period `p`, `SetPeriod(p)`
sets the period to `p`, resets `totalCost` to 0, and leaves the held
subscription list unchanged. -/
theorem c7_set_period_resets (cs : CostSummary) (p : DatePeriod) :
    (cs.setPeriod p).period = p ∧ (cs.setPeriod p).totalCost = 0 ∧
    (cs.setPeriod p).subscriptions = cs.subscriptions :=
  ⟨rfl, rfl, rfl⟩

/-- C8: `DatePeriod(from, to).Validate()` succeeds exactly when
`from ≤ to`, and fails with the invalid-range error exactly when
`to < from`. -/
theorem c8_validate_iff (dp : DatePeriod) :
    (dp.validate = .ok () ↔ GoTime.le dp.fromT dp.toT = true) ∧
    dp.validate = (if GoTime.before dp.toT dp.fromT then
      Except.error "end date cannot be before start date" else .ok ()) := by
  refine ⟨?_, rfl⟩
  unfold DatePeriod.validate GoTime.le
  cases h : GoTime.before dp.toT dp.fromT <;> simp [h]

/-- C2: if a subscription is inactive at `from` and also inactive at `to`
(per `IsActive`), then `CalculateCostForPeriod(from, to)` returns 0; in
particular the Feb-2025-only subscription queried over Jan-2025 to
Mar-2025 returns 0 even though it is active strictly inside the window. -/
theorem c2_short_circuit :
    (∀ (s : Subscription) (f t : GoTime),
       s.isActive f = false → s.isActive t = false →
       s.calculateCostForPeriod f t = 0) ∧
    febOnlySub.calculateCostForPeriod ⟨24300, 0⟩ ⟨24302, 2678399999999999⟩ = 0 ∧
    febOnlySub.isActive ⟨24301, 12345⟩ = true := by
  refine ⟨?_, by decide, by decide⟩
  intro s f t h1 h2
  simp [Subscription.calculateCostForPeriod, h1, h2]

/-- Witness for C2 at a concrete inactive-at-both-endpoints input. -/
theorem c2_short_circuit_witness :
    febOnlySub.isActive ⟨24300, 0⟩ = false ∧
    febOnlySub.isActive ⟨24302, 0⟩ = false ∧
    febOnlySub.calculateCostForPeriod ⟨24300, 0⟩ ⟨24302, 0⟩ = 0 :=
  ⟨by decide, by decide,
   c2_short_circuit.1 febOnlySub ⟨24300, 0⟩ ⟨24302, 0⟩ (by decide) (by decide)⟩

/-- C3: the open-ended price-100 subscription starting Jan-2025 costs 300
over Jan-2025..Mar-2025, 100 over Feb-2025..Feb-2025, and 0 over any
period lying entirely before Jan-2025. -/
theorem c3_open_sub_costs :
    openSub.calculateCostForPeriod ⟨24300, 0⟩ ⟨24302, 2678399999999999⟩ = 300 ∧
    openSub.calculateCostForPeriod ⟨24301, 0⟩ ⟨24301, 2419199999999999⟩ = 100 ∧
    (∀ f t : GoTime, GoTime.le f t = true → GoTime.before t ⟨24300, 0⟩ = true →
       openSub.calculateCostForPeriod f t = 0) := by
  refine ⟨by decide, by decide, ?_⟩
  intro f t hle hb
  have hf : GoTime.before f (⟨24300, 0⟩ : GoTime) = true := by
    rw [GoTime.before_iff] at hb ⊢
    rw [GoTime.le_iff] at hle
    omega
  have h1 : openSub.isActive f = false := by
    simp [Subscription.isActive, openSub, hf]
  have h2 : openSub.isActive t = false := by
    simp [Subscription.isActive, openSub, hb]
  simp [Subscription.calculateCostForPeriod, h1, h2]

/-- Witness for C3 at a concrete period entirely before Jan-2025. -/
theorem c3_open_sub_costs_witness :
    GoTime.le ⟨24299, 0⟩ ⟨24299, 5⟩ = true ∧
    GoTime.before ⟨24299, 5⟩ ⟨24300, 0⟩ = true ∧
    openSub.calculateCostForPeriod ⟨24299, 0⟩ ⟨24299, 5⟩ = 0 :=
  ⟨by decide, by decide,
   c3_open_sub_costs.2.2 ⟨24299, 0⟩ ⟨24299, 5⟩ (by decide) (by decide)⟩

/-- C4: `ValidatePagination` maps `limit = 0` to the default 20, clamps
any limit above 100 to 100, errors on any negative limit or offset, and
passes any limit in 1..100 with non-negative offset through unchanged. -/
theorem c4_validate_pagination :
    (∀ offset : Int, 0 ≤ offset → validatePagination 0 offset = .ok (20, offset)) ∧
    (∀ limit offset : Int, 100 < limit → 0 ≤ offset →
       validatePagination limit offset = .ok (100, offset)) ∧
    (∀ limit offset : Int, limit < 0 ∨ offset < 0 →
       ∃ e, validatePagination limit offset = .error e) ∧
    (∀ limit offset : Int, 1 ≤ limit → limit ≤ 100 → 0 ≤ offset →
       validatePagination limit offset = .ok (limit, offset)) := by
  refine ⟨?_, ?_, ?_, ?_⟩
  · intro offset h
    simp [validatePagination, show ¬ offset < 0 by omega]
  · intro limit offset h1 h2
    simp [validatePagination, show ¬ limit < 0 by omega, show ¬ offset < 0 by omega,
      show limit ≠ 0 by omega, show 100 < limit from h1]
  · intro limit offset h
    by_cases hl : limit < 0
    · exact ⟨.invalidPaginationParams limit offset "limit_error" "must be non-negative",
        by simp [validatePagination, hl]⟩
    · have ho : offset < 0 := by omega
      exact ⟨.invalidPaginationParams limit offset "offset_error" "must be non-negative",
        by simp [validatePagination, hl, ho]⟩
  · intro limit offset h1 h2 h3
    simp [validatePagination, show ¬ limit < 0 by omega, show ¬ offset < 0 by omega,
      show limit ≠ 0 by omega, show ¬ 100 < limit by omega]

/-- Witness for C4 at concrete pagination inputs. -/
theorem c4_validate_pagination_witness :
    validatePagination 0 5 = .ok (20, 5) ∧
    validatePagination 150 0 = .ok (100, 0) ∧
    (∃ e, validatePagination (-1) 2 = .error e) ∧
    (∃ e, validatePagination 7 (-1) = .error e) ∧
    validatePagination 42 7 = .ok (42, 7) :=
  ⟨c4_validate_pagination.1 5 (by decide),
   c4_validate_pagination.2.1 150 0 (by decide) (by decide),
   c4_validate_pagination.2.2.1 (-1) 2 (Or.inl (by decide)),
   c4_validate_pagination.2.2.1 7 (-1) (Or.inr (by decide)),
   c4_validate_pagination.2.2.2 42 7 (by decide) (by decide) (by decide)⟩

/-- C5: updating an existing subscription with no fields supplied returns
the stored entity unchanged and never invokes the repository write (the
returned flag is `false`). -/
theorem c5_update_no_fields (sub : Subscription) (id : Nat) (now : GoTime)
    (h : id ≠ 0) :
    updateSubscription id (some sub) none none none none now = .ok (sub, false) := by
  simp [updateSubscription, getSubscriptionByID, validateUpdateInput, h]

/-- Witness for C5 at a concrete stored subscription. -/
theorem c5_update_no_fields_witness :
    updateSubscription 1 (some openSub) none none none none ⟨9, 9⟩
      = .ok (openSub, false) :=
  c5_update_no_fields openSub 1 ⟨9, 9⟩ (by decide)

/-- C10: in `UpdateSubscription`, a supplied empty-string serviceName is
treated exactly like an omitted serviceName, whereas a supplied
empty-string endDate clears the stored endDate and marks the entity as
changed (so the repository write runs). -/
theorem c10_empty_string_semantics :
    (∀ (id : Nat) (fetched : Option Subscription) (price : Option Int)
       (startDate endDate : Option String) (now : GoTime),
       updateSubscription id fetched (some "") price startDate endDate now
         = updateSubscription id fetched none price startDate endDate now) ∧
    (∀ (sub : Subscription) (id : Nat) (now : GoTime),
       id ≠ 0 → sub.serviceName ≠ "" → 0 < sub.price → sub.userID ≠ 0 →
       updateSubscription id (some sub) none none none (some "") now
         = .ok (sub.setEndDate none now, true)) := by
  constructor
  · intro id fetched price startDate endDate now
    simp [updateSubscription, validateUpdateInput]
  · intro sub id now h1 h2 h3 h4
    simp [updateSubscription, getSubscriptionByID, validateUpdateInput,
      Subscription.validate, Subscription.setEndDate, h1, h2, h4,
      show ¬ sub.price ≤ 0 by omega]

/-- Witness for C10 at concrete update calls. -/
theorem c10_empty_string_semantics_witness :
    updateSubscription 1 (some openSub) (some "") none none none ⟨9, 9⟩
      = updateSubscription 1 (some openSub) none none none none ⟨9, 9⟩ ∧
    updateSubscription 1 (some febOnlySub) none none none (some "") ⟨9, 9⟩
      = .ok (febOnlySub.setEndDate none ⟨9, 9⟩, true) :=
  ⟨c10_empty_string_semantics.1 1 (some openSub) none none none ⟨9, 9⟩,
   c10_empty_string_semantics.2 febOnlySub 1 ⟨9, 9⟩ (by decide) (by decide)
     (by decide) (by decide)⟩

/-- C9: `ParseMonthYear` accepts only strings splitting on `-` into a
month component in 1..12 and a year component in 2000..2100; well-formed
`MM-YYYY` strings with years outside 2000..2100 are rejected with the
invalid-date-format error, and `CreateSubscription` and
`CalculateTotalCost` therefore reject them too. -/
theorem c9_parse_month_year_range :
    (∀ (s : String) (t : GoTime), parseMonthYear s = .ok t →
       ∃ p0 p1 m y, splitDash s.toList = [p0, p1] ∧
         atoiL p0 = some m ∧ 1 ≤ m ∧ m ≤ 12 ∧
         atoiL p1 = some y ∧ 2000 ≤ y ∧ y ≤ 2100) ∧
    parseMonthYear "01-1999" = .error (.invalidDateFormat "01-1999") ∧
    parseMonthYear "01-2101" = .error (.invalidDateFormat "01-2101") ∧
    createSubscription "netflix" 100 1 "01-1999" none ⟨0, 0⟩ 5
      = .error (.invalidDateFormat "01-1999") ∧
    calculateTotalCost [] none none "01-2101" "03-2025"
      = .error (.invalidDateFormat "01-2101") := by
  refine ⟨?_, by decide, by decide, by decide, by decide⟩
  intro s t h
  unfold parseMonthYear at h
  by_cases hs : s = ""
  · simp [hs] at h
  rw [if_neg hs] at h
  split at h
  case _ p0 p1 heq =>
    split at h
    case _ => simp at h
    case _ m hm =>
      split at h
      case _ => simp at h
      case _ hrange =>
        split at h
        case _ => simp at h
        case _ y hy =>
          split at h
          case _ => simp at h
          case _ hyrange =>
            push_neg at hrange hyrange
            exact ⟨p0, p1, m, y, heq, hm, by omega, by omega, hy, by omega, by omega⟩
  case _ => simp at h

/-- Witness for C9: an accepted input, run through the acceptance bound. -/
theorem c9_parse_month_year_range_witness :
    parseMonthYear "07-2025" = .ok ⟨24306, 0⟩ ∧
    (∃ p0 p1 m y, splitDash ("07-2025".toList) = [p0, p1] ∧
       atoiL p0 = some m ∧ 1 ≤ m ∧ m ≤ 12 ∧
       atoiL p1 = some y ∧ 2000 ≤ y ∧ y ≤ 2100) :=
  ⟨by decide, c9_parse_month_year_range.1 "07-2025" ⟨24306, 0⟩ (by decide)⟩

/-- C1: the two cost paths disagree.  For the single open-ended price-100
subscription starting Jan-2025 and the period Jan-2025..Mar-2025, the
service's `CalculateTotalCost` (delegating to the repository aggregate,
which sums the raw `price` of each selected row once) returns a summary
with total 100, while a `CostSummary` over the same period and the same
subscription returns 300 from `Calculate()` (price × 3 months). -/
theorem c1_cross_path_divergence :
    calculateTotalCost [openSub] none none "01-2025" "03-2025"
      = .ok ((newCostSummary ⟨⟨24300, 0⟩, ⟨24302, 2678399999999999⟩⟩).setTotalCost 100) ∧
    getTotalCostForPeriod [openSub] {} ⟨⟨24300, 0⟩, ⟨24302, 2678399999999999⟩⟩ = 100 ∧
    (((newCostSummary ⟨⟨24300, 0⟩, ⟨24302, 2678399999999999⟩⟩).addSubscription
        openSub).calculate).2 = 300 :=
  ⟨by decide, by decide, by decide⟩
